import Mathlib

/-!
A verification development for the client-side interface pointer of the fidl
C++ bindings (src/cpp/bindings/interface_ptr.h): the binding lifecycle state
machine and the ownership-transfer protocol of `InterfacePtr`.

The public methods of `InterfacePtr` are embedded directly from
src/cpp/bindings/interface_ptr.h.  The collaborating classes
`InterfaceHandle` (lib/fidl/cpp/bindings/interface_handle.h) and
`internal::InterfacePtrState` (lib/fidl/cpp/bindings/internal/interface_ptr_internal.h)
are not part of the sources under study; their contracts are modelled from the
specification, and every such definition is marked `Modelled from the spec:`.

Channel endpoints are identified by natural numbers.  Closing an endpoint is
made observable through an explicit `World` that records the list of endpoints
closed so far.
-/

/-- Modelled from the spec: the Capability Handle (`InterfaceHandle`, declared in
lib/fidl/cpp/bindings/interface_handle.h, which is not under src/): an inert,
movable value carrying an owning, nullable channel-endpoint handle plus a
declared interface version.  `none` encodes an invalid channel endpoint. -/
structure InterfaceHandle where
  handle : Option Nat
  version : Nat
deriving DecidableEq

/-- Modelled from the spec: validity of a Capability Handle is a single boolean
derivable from the channel-endpoint handle. -/
def InterfaceHandle.is_valid (h : InterfaceHandle) : Bool :=
  h.handle.isSome

/-- Modelled from the spec: the Binding State (`internal::InterfacePtrState`,
declared in lib/fidl/cpp/bindings/internal/interface_ptr_internal.h, which is
not under src/): an optional owned channel endpoint, the negotiated version,
the sticky error flag, the asynchronous waiter in use, and the optional
connection-error callback (callbacks are identified by natural numbers). -/
structure InterfacePtrState where
  endpoint : Option Nat
  version : Nat
  error : Bool
  waiter : Nat
  handler : Option Nat
deriving DecidableEq

/-- Modelled from the spec: the default-constructed, empty Binding State. -/
def InterfacePtrState.empty : InterfacePtrState :=
  ⟨none, 0, false, 0, none⟩

/-- Modelled from the spec: a Binding State is bound precisely when it owns a
channel endpoint. -/
def InterfacePtrState.is_bound (s : InterfacePtrState) : Bool :=
  s.endpoint.isSome

/-- Modelled from the spec: `InterfacePtrState::encountered_error`, the sticky
error flag. -/
def InterfacePtrState.encountered_error (s : InterfacePtrState) : Bool :=
  s.error

/-- Modelled from the spec: `InterfacePtrState::Swap` exchanges two complete
Binding States; ownership transfer is always by swap, never by copy.  The
first component is the new state of the receiver, the second the new state of
the argument. -/
def InterfacePtrState.Swap (a b : InterfacePtrState) : InterfacePtrState × InterfacePtrState :=
  (b, a)

/-- Modelled from the spec: the endpoints released when a Binding State is
destroyed — the owned channel endpoint, if still owned. -/
def InterfacePtrState.closeList (s : InterfacePtrState) : List Nat :=
  s.endpoint.toList

/-- Modelled from the spec: `InterfacePtrState::Bind` populates an empty
Binding State from a valid Capability Handle, taking ownership of its channel
endpoint and declared version and registering the waiter for future
asynchronous notifications; the error flag starts clear. -/
def InterfacePtrState.Bind (s : InterfacePtrState) (info : InterfaceHandle)
    (waiter : Nat) : InterfacePtrState :=
  ⟨info.handle, info.version, false, waiter, s.handler⟩

/-- Modelled from the spec: `InterfacePtrState::RequireVersion` does nothing
when the required version is already known to be supported; otherwise it
records the requirement (any rejection by the remote side arrives only
asynchronously, never inside this call). -/
def InterfacePtrState.RequireVersion (s : InterfacePtrState) (v : Nat) : InterfacePtrState :=
  if v ≤ s.version then s else { s with version := v }

/-- Modelled from the spec: `InterfacePtrState::set_connection_error_handler`
registers the callback invoked on asynchronous error detection. -/
def InterfacePtrState.set_connection_error_handler (s : InterfacePtrState)
    (cb : Nat) : InterfacePtrState :=
  { s with handler := some cb }

/-- Modelled from the spec: a method call through the proxy's dispatcher.  A
call on a binding whose sticky error flag is set is silently dropped; otherwise
the message is sent on the channel.  The second component is the list of
messages actually sent. -/
def InterfacePtrState.call (s : InterfacePtrState) (m : Nat) : InterfacePtrState × List Nat :=
  if s.error then (s, []) else (s, [m])

/-- Modelled from the spec: `InterfacePtrState::PassInterfaceHandle` moves the
owned channel endpoint and the negotiated version into a Capability Handle,
leaving the state without ownership of the endpoint. -/
def InterfacePtrState.PassInterfaceHandle (s : InterfacePtrState) :
    InterfaceHandle × InterfacePtrState :=
  (⟨s.endpoint, s.version⟩, { s with endpoint := none })

/-- A relative timeout (`ftl::TimeDelta`), either a finite number of ticks or
infinite. -/
inductive TimeDelta where
  | finite (ticks : Nat)
  | infinite
deriving DecidableEq

/-- The infinite deadline passed by `InterfacePtr::WaitForIncomingResponse`. -/
def MX_TIME_INFINITE : TimeDelta :=
  TimeDelta.infinite

/-- Whether a deadline elapses strictly before the given instant. -/
def TimeDelta.expiresBefore : TimeDelta → Nat → Bool
  | TimeDelta.finite d, t => decide (d < t)
  | TimeDelta.infinite, _ => false

/-- The kind of the next inbound event the channel delivers: a complete
response message, or a channel failure (remote close, malformed input). -/
inductive Arrival where
  | message
  | chanError
deriving DecidableEq

/-- Modelled from the spec: the environment of a blocking wait — the next
inbound event on the channel together with its arrival time, or `none` when
nothing ever arrives. -/
structure WaitEnv where
  next : Option (Nat × Arrival)
deriving DecidableEq

/-- Modelled from the spec: `InterfacePtrState::WaitForIncomingResponse`
blocks until one inbound message has been received and dispatched (result
`true`), the binding enters the error state (result `false`), or the deadline
elapses first (result `false`, error flag untouched).  `none` means the call
never returns (infinite deadline, nothing ever arrives). -/
def InterfacePtrState.WaitForIncomingResponse (s : InterfacePtrState)
    (timeout : TimeDelta) (env : WaitEnv) : Option (Bool × InterfacePtrState) :=
  if s.error then some (false, s)
  else
    match env.next with
    | none =>
      match timeout with
      | TimeDelta.finite _ => some (false, s)
      | TimeDelta.infinite => none
    | some (t, a) =>
      if timeout.expiresBefore t then some (false, s)
      else
        match a with
        | Arrival.message => some (true, s)
        | Arrival.chanError => some (false, { s with error := true })

/-- The observable world outside the handles: the list of channel endpoints
that have been closed so far. -/
structure World where
  closed : List Nat
deriving DecidableEq

/-- `InterfacePtr` (interface_ptr.h:34-181): the move-only Proxy Handle owning
exactly one Binding State by value. -/
structure InterfacePtr where
  internal_state : InterfacePtrState
deriving DecidableEq

/-- `InterfacePtr::InterfacePtr()` (interface_ptr.h:38): constructs an unbound
pointer with a default-constructed state. -/
def InterfacePtr.mk_default : InterfacePtr :=
  ⟨InterfacePtrState.empty⟩

/-- `InterfacePtr::InterfacePtr(std::nullptr_t)` (interface_ptr.h:39): same
body as the default constructor. -/
def InterfacePtr.mk_null : InterfacePtr :=
  ⟨InterfacePtrState.empty⟩

/-- `InterfacePtr::is_bound` (interface_ptr.h:92): forwards to the state. -/
def InterfacePtr.is_bound (p : InterfacePtr) : Bool :=
  p.internal_state.is_bound

/-- `InterfacePtr::version` (interface_ptr.h:103): forwards to the state. -/
def InterfacePtr.version (p : InterfacePtr) : Nat :=
  p.internal_state.version

/-- `InterfacePtr::encountered_error` (interface_ptr.h:150): forwards to the
state. -/
def InterfacePtr.encountered_error (p : InterfacePtr) : Bool :=
  p.internal_state.encountered_error

/-- `InterfacePtr::reset` (interface_ptr.h:118-121): swaps the internal state
with a default-constructed `State doomed`; `doomed` is then destroyed, closing
the endpoint it now owns (if any). -/
def InterfacePtr.reset (p : InterfacePtr) (w : World) : InterfacePtr × World :=
  (⟨(p.internal_state.Swap InterfacePtrState.empty).1⟩,
   ⟨w.closed ++ ((p.internal_state.Swap InterfacePtrState.empty).2).closeList⟩)

/-- `InterfacePtr::InterfacePtr(InterfacePtr&&)` (interface_ptr.h:42-44): a
fresh default state swapped with the source's state.  First component: the
newly constructed pointer; second: the moved-from source. -/
def InterfacePtr.moveCtor (other : InterfacePtr) : InterfacePtr × InterfacePtr :=
  (⟨(InterfacePtrState.empty.Swap other.internal_state).1⟩,
   ⟨(InterfacePtrState.empty.Swap other.internal_state).2⟩)

/-- `InterfacePtr::operator=(InterfacePtr&&)` (interface_ptr.h:48-52): first
`reset()`, then swap with the source's state.  Components: the assigned-to
pointer, the moved-from source, the world after the reset closed the
destination's previous endpoint. -/
def InterfacePtr.moveAssign (p other : InterfacePtr) (w : World) :
    InterfacePtr × InterfacePtr × World :=
  (⟨((p.reset w).1.internal_state.Swap other.internal_state).1⟩,
   ⟨((p.reset w).1.internal_state.Swap other.internal_state).2⟩,
   (p.reset w).2)

/-- `InterfacePtr::operator=(std::nullptr_t)` (interface_ptr.h:56-59): calls
`reset()` and returns the pointer. -/
def InterfacePtr.assignNull (p : InterfacePtr) (w : World) : InterfacePtr × World :=
  p.reset w

/-- `InterfacePtr::Bind` (interface_ptr.h:84-89): `reset()` first, then bind
the state to the capability only when it is valid. -/
def InterfacePtr.Bind (p : InterfacePtr) (info : InterfaceHandle) (waiter : Nat)
    (w : World) : InterfacePtr × World :=
  if info.is_valid then
    (⟨(p.reset w).1.internal_state.Bind info waiter⟩, (p.reset w).2)
  else
    p.reset w

/-- `InterfacePtr::Create` (interface_ptr.h:67-74): a default-constructed
pointer, bound via `Bind` only when the capability is valid. -/
def InterfacePtr.Create (info : InterfaceHandle) (waiter : Nat) (w : World) :
    InterfacePtr × World :=
  if info.is_valid then InterfacePtr.mk_default.Bind info waiter w
  else (InterfacePtr.mk_default, w)

/-- `InterfacePtr::RequireVersion` (interface_ptr.h:112-114): forwards to the
state. -/
def InterfacePtr.RequireVersion (p : InterfacePtr) (v : Nat) : InterfacePtr :=
  ⟨p.internal_state.RequireVersion v⟩

/-- `InterfacePtr::set_connection_error_handler` (interface_ptr.h:157-159):
forwards to the state. -/
def InterfacePtr.set_connection_error_handler (p : InterfacePtr) (cb : Nat) : InterfacePtr :=
  ⟨p.internal_state.set_connection_error_handler cb⟩

/-- `InterfacePtr::WaitForIncomingResponseWithTimeout` (interface_ptr.h:143-145):
forwards to the state with the given deadline. -/
def InterfacePtr.WaitForIncomingResponseWithTimeout (p : InterfacePtr)
    (timeout : TimeDelta) (env : WaitEnv) : Option (Bool × InterfacePtr) :=
  (p.internal_state.WaitForIncomingResponse timeout env).map (fun r => (r.1, ⟨r.2⟩))

/-- `InterfacePtr::WaitForIncomingResponse` (interface_ptr.h:132-134): forwards
to the state with `MX_TIME_INFINITE`. -/
def InterfacePtr.WaitForIncomingResponse (p : InterfacePtr) (env : WaitEnv) :
    Option (Bool × InterfacePtr) :=
  (p.internal_state.WaitForIncomingResponse MX_TIME_INFINITE env).map (fun r => (r.1, ⟨r.2⟩))

/-- `InterfacePtr::PassInterfaceHandle` (interface_ptr.h:164-169): swap the
internal state into a local `State state`, then return
`state.PassInterfaceHandle()`; the local state is destroyed afterwards, by then
no longer owning the endpoint.  Components: the extracted Capability Handle,
the emptied pointer, the world after the local state's destruction. -/
def InterfacePtr.PassInterfaceHandle (p : InterfacePtr) (w : World) :
    InterfaceHandle × InterfacePtr × World :=
  ((((p.internal_state.Swap InterfacePtrState.empty).2).PassInterfaceHandle).1,
   ⟨(p.internal_state.Swap InterfacePtrState.empty).1⟩,
   ⟨w.closed ++ ((((p.internal_state.Swap InterfacePtrState.empty).2).PassInterfaceHandle).2).closeList⟩)

/-- A system of interface pointers, floating Capability Handles, and the
observable world, used to state the single-ownership invariant over arbitrary
operation sequences. -/
structure Sys where
  ptrs : List InterfacePtr
  caps : List InterfaceHandle
  closed : List Nat
deriving DecidableEq

/-- One operation of the lifecycle protocol, addressing pointers and
capabilities by position. -/
inductive Op where
  | reset (i : Nat)
  | moveAssign (i j : Nat)
  | moveCtor (j : Nat)
  | bind (i k : Nat) (waiter : Nat)
  | pass (i : Nat)
deriving DecidableEq

/-- Run `InterfacePtr::reset` on the pointer at position `i` (no-op when the
position is out of range). -/
def Sys.resetAt (s : Sys) (i : Nat) : Sys :=
  match s.ptrs[i]? with
  | some p => ⟨s.ptrs.set i (p.reset ⟨s.closed⟩).1, s.caps, ((p.reset ⟨s.closed⟩).2).closed⟩
  | none => s

/-- Run `ptrs[i] = std::move(ptrs[j])`.  Self-assignment behaves as the C++
member does when source and destination alias: the `reset()` empties the state
and the self-swap is then a no-op, so it coincides with `resetAt`. -/
def Sys.moveAssignAt (s : Sys) (i j : Nat) : Sys :=
  if i = j then s.resetAt i
  else
    match s.ptrs[i]?, s.ptrs[j]? with
    | some p, some q =>
      ⟨(s.ptrs.set i (p.moveAssign q ⟨s.closed⟩).1).set j (p.moveAssign q ⟨s.closed⟩).2.1,
       s.caps, (((p.moveAssign q ⟨s.closed⟩).2.2)).closed⟩
    | _, _ => s

/-- Run `InterfacePtr moved(std::move(ptrs[j]))`, appending the newly
constructed pointer to the system. -/
def Sys.moveCtorAt (s : Sys) (j : Nat) : Sys :=
  match s.ptrs[j]? with
  | some q => ⟨(s.ptrs.set j (InterfacePtr.moveCtor q).2) ++ [(InterfacePtr.moveCtor q).1],
               s.caps, s.closed⟩
  | none => s

/-- Run `ptrs[i].Bind(std::move(caps[k]), waiter)`, consuming the capability. -/
def Sys.bindAt (s : Sys) (i k : Nat) (waiter : Nat) : Sys :=
  match s.ptrs[i]?, s.caps[k]? with
  | some p, some c =>
    ⟨s.ptrs.set i (p.Bind c waiter ⟨s.closed⟩).1, s.caps.eraseIdx k,
     ((p.Bind c waiter ⟨s.closed⟩).2).closed⟩
  | _, _ => s

/-- Run `caps.push_back(ptrs[i].PassInterfaceHandle())`. -/
def Sys.passAt (s : Sys) (i : Nat) : Sys :=
  match s.ptrs[i]? with
  | some p =>
    ⟨s.ptrs.set i (p.PassInterfaceHandle ⟨s.closed⟩).2.1,
     s.caps ++ [(p.PassInterfaceHandle ⟨s.closed⟩).1],
     (((p.PassInterfaceHandle ⟨s.closed⟩).2.2)).closed⟩
  | none => s

/-- One step of the lifecycle protocol. -/
def Sys.step (s : Sys) : Op → Sys
  | Op.reset i => s.resetAt i
  | Op.moveAssign i j => s.moveAssignAt i j
  | Op.moveCtor j => s.moveCtorAt j
  | Op.bind i k waiter => s.bindAt i k waiter
  | Op.pass i => s.passAt i

/-- Run a sequence of lifecycle operations from an initial system. -/
def Sys.run (s : Sys) (ops : List Op) : Sys :=
  ops.foldl Sys.step s

/-- The channel endpoint owned by a pointer, if any. -/
def ptrOwner (p : InterfacePtr) : Option Nat :=
  p.internal_state.endpoint

/-- The channel endpoint owned by a floating capability, if any. -/
def capOwner (h : InterfaceHandle) : Option Nat :=
  h.handle

/-- All currently owned channel endpoints of a system, with multiplicity. -/
def Sys.owners (s : Sys) : Multiset Nat :=
  (s.ptrs.filterMap ptrOwner : List Nat) + (s.caps.filterMap capOwner : List Nat)

/-- The single-ownership invariant: no channel endpoint is owned twice across
all live pointers and floating capabilities. -/
def Sys.Distinct (s : Sys) : Prop :=
  s.owners.Nodup

/-- The operations available on a handle that keep it bound: version
requirements, blocking waits, dispatched method calls, and error-handler
registration (reset, rebinding, and ownership transfer are the unbinding
operations excluded by the sticky-error contract). -/
inductive BoundOp where
  | requireVersion (v : Nat)
  | wait (timeout : TimeDelta) (env : WaitEnv)
  | call (m : Nat)
  | setHandler (cb : Nat)
deriving DecidableEq

/-- Modelled from the spec: the effect on the Binding State of one
bound-preserving operation (a wait that never returns leaves no observable
successor; its state is taken unchanged). -/
def applyBoundOp (s : InterfacePtrState) (op : BoundOp) : InterfacePtrState :=
  match op with
  | BoundOp.requireVersion v => s.RequireVersion v
  | BoundOp.wait timeout env =>
    match s.WaitForIncomingResponse timeout env with
    | some r => r.2
    | none => s
  | BoundOp.call m => (s.call m).1
  | BoundOp.setHandler cb => s.set_connection_error_handler cb

/-- Unfolding `List.filterMap` on a cons cell through `Option.toList`. -/
theorem filterMap_cons_toList {α β : Type} (f : α → Option β) (x : α) (l : List α) :
    List.filterMap f (x :: l) = (f x).toList ++ List.filterMap f l := by
  cases h : f x <;> simp [List.filterMap_cons, h]

/-- Writing one slot of a list exchanges its contribution to the filterMap
multiset for the new element's contribution. -/
theorem coe_filterMap_set {α β : Type} (f : α → Option β) :
    ∀ (l : List α) (i : Nat) (a x : α), l[i]? = some x →
      (((l.set i a).filterMap f : List β) : Multiset β) + ((f x).toList : Multiset β) =
      ((l.filterMap f : List β) : Multiset β) + ((f a).toList : Multiset β) := by
  intro l
  induction l with
  | nil => intro i a x h; simp at h
  | cons y ys ih =>
    intro i a x h
    cases i with
    | zero =>
      simp only [List.getElem?_cons_zero, Option.some.injEq] at h
      subst h
      simp only [List.set_cons_zero, filterMap_cons_toList, ← Multiset.coe_add]
      abel
    | succ n =>
      simp only [List.getElem?_cons_succ] at h
      simp only [List.set_cons_succ, filterMap_cons_toList, ← Multiset.coe_add]
      rw [add_assoc, ih n a x h, ← add_assoc]

/-- Erasing one slot of a list removes exactly its contribution to the
filterMap multiset. -/
theorem coe_filterMap_eraseIdx {α β : Type} (f : α → Option β) :
    ∀ (l : List α) (k : Nat) (x : α), l[k]? = some x →
      (((l.eraseIdx k).filterMap f : List β) : Multiset β) + ((f x).toList : Multiset β) =
      ((l.filterMap f : List β) : Multiset β) := by
  intro l
  induction l with
  | nil => intro k x h; simp at h
  | cons y ys ih =>
    intro k x h
    cases k with
    | zero =>
      simp only [List.getElem?_cons_zero, Option.some.injEq] at h
      subst h
      simp only [List.eraseIdx_cons_zero, filterMap_cons_toList, ← Multiset.coe_add]
      abel
    | succ n =>
      simp only [List.getElem?_cons_succ] at h
      simp only [List.eraseIdx_cons_succ, filterMap_cons_toList, ← Multiset.coe_add]
      rw [add_assoc, ih n x h]

/-- A multiset is below anything it reaches by adding. -/
theorem multiset_le_of_add_eq {β : Type} {a b c : Multiset β} (h : a + c = b) : a ≤ b :=
  Multiset.le_iff_exists_add.mpr ⟨c, h.symm⟩

/-- Two distinct positions of a list cannot contribute the same element to a
duplicate-free filterMap. -/
theorem nodup_filterMap_two_positions {α β : Type} (f : α → Option β) :
    ∀ (l : List α) (i j : Nat) (p q : α) (e : β),
      (l.filterMap f).Nodup → i ≠ j → l[i]? = some p → l[j]? = some q →
      f p = some e → f q = some e → False := by
  intro l
  induction l with
  | nil => intro i j p q e _ _ hp; simp at hp
  | cons y ys ih =>
    intro i j p q e hnd hij hp hq hfp hfq
    cases i with
    | zero =>
      cases j with
      | zero => exact hij rfl
      | succ m =>
        simp only [List.getElem?_cons_zero, Option.some.injEq] at hp
        simp only [List.getElem?_cons_succ] at hq
        subst hp
        rw [filterMap_cons_toList, hfp] at hnd
        simp only [Option.toList_some, List.singleton_append, List.nodup_cons] at hnd
        exact hnd.1 (List.mem_filterMap.mpr ⟨q, List.getElem?_mem hq, hfq⟩)
    | succ n =>
      cases j with
      | zero =>
        simp only [List.getElem?_cons_zero, Option.some.injEq] at hq
        simp only [List.getElem?_cons_succ] at hp
        subst hq
        rw [filterMap_cons_toList, hfq] at hnd
        simp only [Option.toList_some, List.singleton_append, List.nodup_cons] at hnd
        exact hnd.1 (List.mem_filterMap.mpr ⟨p, List.getElem?_mem hp, hfp⟩)
      | succ m =>
        simp only [List.getElem?_cons_succ] at hp hq
        have hnd' : (ys.filterMap f).Nodup := by
          rw [filterMap_cons_toList] at hnd
          cases hfy : f y
          · rw [hfy] at hnd; simpa using hnd
          · rw [hfy] at hnd
            simp only [Option.toList_some, List.singleton_append, List.nodup_cons] at hnd
            exact hnd.2
        exact ih n m p q e hnd' (fun hc => hij (by rw [hc])) hp hq hfp hfq

/-- `reset` never grows the multiset of owned endpoints. -/
theorem owners_resetAt_le (s : Sys) (i : Nat) : (s.resetAt i).owners ≤ s.owners := by
  cases h : s.ptrs[i]? with
  | none => simp [Sys.resetAt, h]
  | some p =>
    simp only [Sys.resetAt, h, Sys.owners]
    have hnone : ptrOwner (p.reset ⟨s.closed⟩).1 = none := rfl
    have key := coe_filterMap_set ptrOwner s.ptrs i (p.reset ⟨s.closed⟩).1 p h
    rw [hnone] at key
    simp only [Option.toList_none, Multiset.coe_nil, add_zero] at key
    exact add_le_add_right (multiset_le_of_add_eq key) _

/-- Cancellation step shared by the ownership-transfer lemmas. -/
theorem multiset_exchange {β : Type} {A B C p q : Multiset β}
    (k2 : A + q = B) (k1 : B + p = C + q) : A + p = C := by
  have h : A + p + q = C + q := by
    calc A + p + q = A + q + p := by abel
    _ = B + p := by rw [k2]
    _ = C + q := k1
  exact add_right_cancel h

/-- Move assignment never grows the multiset of owned endpoints. -/
theorem owners_moveAssignAt_le (s : Sys) (i j : Nat) :
    (s.moveAssignAt i j).owners ≤ s.owners := by
  rw [Sys.moveAssignAt]
  by_cases hij : i = j
  · rw [if_pos hij]; exact owners_resetAt_le s i
  · rw [if_neg hij]
    cases hp : s.ptrs[i]? with
    | none => cases hq : s.ptrs[j]? <;> simp
    | some p =>
      cases hq : s.ptrs[j]? with
      | none => simp
      | some q =>
        simp only [Sys.owners]
        have hq' : (s.ptrs.set i (p.moveAssign q ⟨s.closed⟩).1)[j]? = some q := by
          rw [List.getElem?_set_ne hij]; exact hq
        have key1 := coe_filterMap_set ptrOwner s.ptrs i (p.moveAssign q ⟨s.closed⟩).1 p hp
        have key2 := coe_filterMap_set ptrOwner (s.ptrs.set i (p.moveAssign q ⟨s.closed⟩).1) j
          (p.moveAssign q ⟨s.closed⟩).2.1 q hq'
        have hP1 : ptrOwner (p.moveAssign q ⟨s.closed⟩).1 = ptrOwner q := rfl
        have hP2 : ptrOwner (p.moveAssign q ⟨s.closed⟩).2.1 = none := rfl
        rw [hP1] at key1
        rw [hP2] at key2
        simp only [Option.toList_none, Multiset.coe_nil, add_zero] at key2
        exact add_le_add_right (multiset_le_of_add_eq (multiset_exchange key2 key1)) _

/-- Move construction preserves the multiset of owned endpoints. -/
theorem owners_moveCtorAt_le (s : Sys) (j : Nat) :
    (s.moveCtorAt j).owners ≤ s.owners := by
  rw [Sys.moveCtorAt]
  cases hq : s.ptrs[j]? with
  | none => simp
  | some q =>
    simp only [Sys.owners]
    have key := coe_filterMap_set ptrOwner s.ptrs j (InterfacePtr.moveCtor q).2 q hq
    have hP2 : ptrOwner (InterfacePtr.moveCtor q).2 = none := rfl
    rw [hP2] at key
    simp only [Option.toList_none, Multiset.coe_nil, add_zero] at key
    have happ : (((s.ptrs.set j (InterfacePtr.moveCtor q).2 ++
          [(InterfacePtr.moveCtor q).1]).filterMap ptrOwner : List Nat) : Multiset Nat) =
        ((s.ptrs.filterMap ptrOwner : List Nat) : Multiset Nat) := by
      rw [List.filterMap_append]
      have h1 : List.filterMap ptrOwner [(InterfacePtr.moveCtor q).1] = (ptrOwner q).toList := by
        rw [filterMap_cons_toList]
        simp only [List.filterMap_nil, List.append_nil]
        rfl
      rw [h1, ← Multiset.coe_add]
      exact key
    rw [happ]

/-- Bind (consuming a floating capability) never grows the multiset of owned
endpoints. -/
theorem owners_bindAt_le (s : Sys) (i k waiter : Nat) :
    (s.bindAt i k waiter).owners ≤ s.owners := by
  rw [Sys.bindAt]
  cases hp : s.ptrs[i]? with
  | none => cases hk : s.caps[k]? <;> simp
  | some p =>
    cases hk : s.caps[k]? with
    | none => simp
    | some c =>
      simp only [Sys.owners]
      have hP : ptrOwner (p.Bind c waiter ⟨s.closed⟩).1 = capOwner c := by
        cases hc : c.handle with
        | none =>
          have hv : c.is_valid = false := by simp [InterfaceHandle.is_valid, hc]
          simp [InterfacePtr.Bind, hv, ptrOwner, capOwner, hc, InterfacePtr.reset,
            InterfacePtrState.Swap, InterfacePtrState.empty]
        | some e =>
          have hv : c.is_valid = true := by simp [InterfaceHandle.is_valid, hc]
          simp [InterfacePtr.Bind, hv, ptrOwner, capOwner, hc, InterfacePtrState.Bind]
      have key1 := coe_filterMap_set ptrOwner s.ptrs i (p.Bind c waiter ⟨s.closed⟩).1 p hp
      rw [hP] at key1
      have key2 := coe_filterMap_eraseIdx capOwner s.caps k c hk
      apply multiset_le_of_add_eq (c := ((ptrOwner p).toList : Multiset Nat))
      calc ((s.ptrs.set i (p.Bind c waiter ⟨s.closed⟩).1).filterMap ptrOwner : Multiset Nat) +
            ((s.caps.eraseIdx k).filterMap capOwner : List Nat) +
            ((ptrOwner p).toList : Multiset Nat)
          = (((s.ptrs.set i (p.Bind c waiter ⟨s.closed⟩).1).filterMap ptrOwner : List Nat) +
              ((ptrOwner p).toList : Multiset Nat)) +
            (((s.caps.eraseIdx k).filterMap capOwner : List Nat) : Multiset Nat) := by abel
        _ = (((s.ptrs.filterMap ptrOwner : List Nat) : Multiset Nat) +
              ((capOwner c).toList : Multiset Nat)) +
            (((s.caps.eraseIdx k).filterMap capOwner : List Nat) : Multiset Nat) := by rw [key1]
        _ = ((s.ptrs.filterMap ptrOwner : List Nat) : Multiset Nat) +
            ((((s.caps.eraseIdx k).filterMap capOwner : List Nat) : Multiset Nat) +
              ((capOwner c).toList : Multiset Nat)) := by abel
        _ = ((s.ptrs.filterMap ptrOwner : List Nat) : Multiset Nat) +
            ((s.caps.filterMap capOwner : List Nat) : Multiset Nat) := by rw [key2]

/-- Handing the binding back to a Capability Handle preserves the multiset of
owned endpoints. -/
theorem owners_passAt_le (s : Sys) (i : Nat) :
    (s.passAt i).owners ≤ s.owners := by
  rw [Sys.passAt]
  cases hp : s.ptrs[i]? with
  | none => simp
  | some p =>
    simp only [Sys.owners]
    have hP : ptrOwner (p.PassInterfaceHandle ⟨s.closed⟩).2.1 = none := rfl
    have hH : capOwner (p.PassInterfaceHandle ⟨s.closed⟩).1 = ptrOwner p := rfl
    have key := coe_filterMap_set ptrOwner s.ptrs i (p.PassInterfaceHandle ⟨s.closed⟩).2.1 p hp
    rw [hP] at key
    simp only [Option.toList_none, Multiset.coe_nil, add_zero] at key
    apply le_of_eq
    have happ : (((s.caps ++ [(p.PassInterfaceHandle ⟨s.closed⟩).1]).filterMap capOwner :
          List Nat) : Multiset Nat) =
        ((s.caps.filterMap capOwner : List Nat) : Multiset Nat) +
          ((ptrOwner p).toList : Multiset Nat) := by
      rw [List.filterMap_append]
      have h1 : List.filterMap capOwner [(p.PassInterfaceHandle ⟨s.closed⟩).1] =
          (ptrOwner p).toList := by
        rw [filterMap_cons_toList, hH]
        simp
      rw [h1, ← Multiset.coe_add]
    rw [happ]
    calc ((s.ptrs.set i (p.PassInterfaceHandle ⟨s.closed⟩).2.1).filterMap ptrOwner :
            Multiset Nat) +
          (((s.caps.filterMap capOwner : List Nat) : Multiset Nat) +
            ((ptrOwner p).toList : Multiset Nat))
        = (((s.ptrs.set i (p.PassInterfaceHandle ⟨s.closed⟩).2.1).filterMap ptrOwner :
            List Nat) + ((ptrOwner p).toList : Multiset Nat)) +
          ((s.caps.filterMap capOwner : List Nat) : Multiset Nat) := by abel
      _ = ((s.ptrs.filterMap ptrOwner : List Nat) : Multiset Nat) +
          ((s.caps.filterMap capOwner : List Nat) : Multiset Nat) := by rw [key]

/-- Every lifecycle step keeps the owned-endpoint multiset from growing. -/
theorem owners_step_le (s : Sys) (op : Op) : (s.step op).owners ≤ s.owners := by
  cases op with
  | reset i => exact owners_resetAt_le s i
  | moveAssign i j => exact owners_moveAssignAt_le s i j
  | moveCtor j => exact owners_moveCtorAt_le s j
  | bind i k waiter => exact owners_bindAt_le s i k waiter
  | pass i => exact owners_passAt_le s i

/-- One lifecycle step preserves the single-ownership invariant. -/
theorem distinct_step (s : Sys) (op : Op) (h : s.Distinct) : (s.step op).Distinct :=
  Multiset.nodup_of_le (owners_step_le s op) h

/-- Any sequence of lifecycle steps preserves the single-ownership
invariant. -/
theorem distinct_run (ops : List Op) : ∀ (s : Sys), s.Distinct → (s.run ops).Distinct := by
  induction ops with
  | nil => intro s h; exact h
  | cons op rest ih =>
    intro s h
    exact ih (s.step op) (distinct_step s op h)

/-- C1: for every sequence of move-construction, move-assignment, Bind, reset,
and PassInterfaceHandle operations starting from a system in which every
channel endpoint is owned at most once, at most one live handle reports
`is_bound` for a given underlying channel endpoint at any instant: two
distinct bound pointers of the resulting system always own different
endpoints (ownership is transferred by swap, never duplicated). -/
theorem claim_C1_single_ownership (ops : List Op) (s : Sys) (i j : Nat)
    (p q : InterfacePtr) (hd : s.Distinct) (hij : i ≠ j)
    (hp : (s.run ops).ptrs[i]? = some p) (hq : (s.run ops).ptrs[j]? = some q)
    (hbp : p.is_bound = true) (hbq : q.is_bound = true) :
    p.internal_state.endpoint ≠ q.internal_state.endpoint := by
  intro heq
  have hfin : (s.run ops).Distinct := distinct_run ops s hd
  have hnd : ((s.run ops).ptrs.filterMap ptrOwner).Nodup := by
    rw [Sys.Distinct, Sys.owners] at hfin
    exact Multiset.coe_nodup.mp (Multiset.nodup_add.mp hfin).1
  rw [InterfacePtr.is_bound, InterfacePtrState.is_bound] at hbp
  obtain ⟨e, he⟩ := Option.isSome_iff_exists.mp hbp
  have heq' : q.internal_state.endpoint = some e := heq.symm.trans he
  exact nodup_filterMap_two_positions ptrOwner (s.run ops).ptrs i j p q e hnd hij hp hq he heq'

/-- Witness for C1: two pointers bound to endpoints 1 and 2; after a move
construction from the first, the two bound pointers still own different
endpoints. -/
theorem claim_C1_single_ownership_witness :
    (Sys.Distinct ⟨[⟨⟨some 1, 0, false, 0, none⟩⟩, ⟨⟨some 2, 0, false, 0, none⟩⟩], [], []⟩) ∧
    (1 : Nat) ≠ 2 ∧
    ((Sys.run ⟨[⟨⟨some 1, 0, false, 0, none⟩⟩, ⟨⟨some 2, 0, false, 0, none⟩⟩], [], []⟩
        [Op.moveCtor 0]).ptrs[1]? = some ⟨⟨some 2, 0, false, 0, none⟩⟩) ∧
    ((Sys.run ⟨[⟨⟨some 1, 0, false, 0, none⟩⟩, ⟨⟨some 2, 0, false, 0, none⟩⟩], [], []⟩
        [Op.moveCtor 0]).ptrs[2]? = some ⟨⟨some 1, 0, false, 0, none⟩⟩) ∧
    (InterfacePtr.is_bound ⟨⟨some 2, 0, false, 0, none⟩⟩ = true) ∧
    (InterfacePtr.is_bound ⟨⟨some 1, 0, false, 0, none⟩⟩ = true) ∧
    (InterfacePtr.internal_state ⟨⟨some 2, 0, false, 0, none⟩⟩).endpoint ≠
      (InterfacePtr.internal_state ⟨⟨some 1, 0, false, 0, none⟩⟩).endpoint :=
  ⟨by unfold Sys.Distinct; decide, by decide, by decide, by decide, by decide, by decide,
   claim_C1_single_ownership [Op.moveCtor 0]
     ⟨[⟨⟨some 1, 0, false, 0, none⟩⟩, ⟨⟨some 2, 0, false, 0, none⟩⟩], [], []⟩ 1 2
     ⟨⟨some 2, 0, false, 0, none⟩⟩ ⟨⟨some 1, 0, false, 0, none⟩⟩
     (by unfold Sys.Distinct; decide) (by decide) (by decide) (by decide) (by decide) (by decide)⟩

/-- C2: after the move assignment `b = std::move(a)`, `b` holds exactly `a`'s
former binding, `a` ends unbound, and `b`'s original channel endpoint has been
closed by the `reset()` that runs before the swap (the world effect of the
assignment is exactly that of the reset); move construction likewise empties
the source, the destination starting from the default (empty) state. -/
theorem claim_C2_move_assign_releases_then_takes (b a : InterfacePtr) (w : World) :
    (b.moveAssign a w).1.internal_state = a.internal_state ∧
    (b.moveAssign a w).2.1.is_bound = false ∧
    ((b.moveAssign a w).2.2).closed = w.closed ++ b.internal_state.endpoint.toList ∧
    (b.moveAssign a w).2.2 = (b.reset w).2 ∧
    (InterfacePtr.moveCtor a).1.internal_state = a.internal_state ∧
    (InterfacePtr.moveCtor a).2.is_bound = false :=
  ⟨rfl, rfl, rfl, rfl, rfl, rfl⟩

/-- C3: `Bind` first releases any existing binding exactly as `reset` does
(same world effect, closing the previously owned endpoint), then ends bound
precisely when the capability is valid; an invalid capability leaves the
handle in the reset (unbound) state with the error flag clear, and a valid one
installs the capability's endpoint and version with the error flag clear. -/
theorem claim_C3_bind_reset_then_bind_iff_valid (p : InterfacePtr)
    (info : InterfaceHandle) (waiter : Nat) (w : World) :
    (p.Bind info waiter w).1.is_bound = info.is_valid ∧
    (p.Bind info waiter w).2 = (p.reset w).2 ∧
    ((p.Bind info waiter w).2).closed = w.closed ++ p.internal_state.endpoint.toList ∧
    (info.is_valid = false → (p.Bind info waiter w).1 = (p.reset w).1 ∧
      (p.Bind info waiter w).1.encountered_error = false) ∧
    (info.is_valid = true → (p.Bind info waiter w).1.internal_state.endpoint = info.handle ∧
      (p.Bind info waiter w).1.version = info.version ∧
      (p.Bind info waiter w).1.encountered_error = false) := by
  cases hc : info.handle with
  | none =>
    have hv : info.is_valid = false := by simp [InterfaceHandle.is_valid, hc]
    simp [InterfacePtr.Bind, hv, InterfacePtr.is_bound, InterfacePtrState.is_bound,
      InterfacePtr.encountered_error, InterfacePtrState.encountered_error,
      InterfacePtr.reset, InterfacePtrState.Swap, InterfacePtrState.empty,
      InterfacePtrState.closeList]
  | some e =>
    have hv : info.is_valid = true := by simp [InterfaceHandle.is_valid, hc]
    simp [InterfacePtr.Bind, hv, InterfacePtr.is_bound, InterfacePtrState.is_bound,
      InterfacePtr.encountered_error, InterfacePtrState.encountered_error,
      InterfacePtr.version, InterfacePtrState.Bind, hc,
      InterfacePtr.reset, InterfacePtrState.Swap, InterfacePtrState.empty,
      InterfacePtrState.closeList]

/-- Witness for C3: binding a pointer that owns endpoint 5 to a valid
capability for endpoint 7 closes endpoint 5 and installs endpoint 7. -/
theorem claim_C3_bind_reset_then_bind_iff_valid_witness :
    (InterfacePtr.Bind ⟨⟨some 5, 1, false, 0, none⟩⟩ ⟨some 7, 3⟩ 0 ⟨[]⟩).1.is_bound =
      InterfaceHandle.is_valid ⟨some 7, 3⟩ ∧
    ((InterfacePtr.Bind ⟨⟨some 5, 1, false, 0, none⟩⟩ ⟨some 7, 3⟩ 0 ⟨[]⟩).2).closed =
      [] ++ (InterfacePtr.internal_state ⟨⟨some 5, 1, false, 0, none⟩⟩).endpoint.toList ∧
    (InterfaceHandle.is_valid ⟨some 7, 3⟩ = true →
      (InterfacePtr.Bind ⟨⟨some 5, 1, false, 0, none⟩⟩ ⟨some 7, 3⟩ 0
          ⟨[]⟩).1.internal_state.endpoint = InterfaceHandle.handle ⟨some 7, 3⟩ ∧
      (InterfacePtr.Bind ⟨⟨some 5, 1, false, 0, none⟩⟩ ⟨some 7, 3⟩ 0 ⟨[]⟩).1.version =
        InterfaceHandle.version ⟨some 7, 3⟩ ∧
      (InterfacePtr.Bind ⟨⟨some 5, 1, false, 0, none⟩⟩ ⟨some 7, 3⟩ 0
          ⟨[]⟩).1.encountered_error = false) :=
  ⟨(claim_C3_bind_reset_then_bind_iff_valid ⟨⟨some 5, 1, false, 0, none⟩⟩ ⟨some 7, 3⟩ 0 ⟨[]⟩).1,
   (claim_C3_bind_reset_then_bind_iff_valid ⟨⟨some 5, 1, false, 0, none⟩⟩ ⟨some 7, 3⟩ 0 ⟨[]⟩).2.2.1,
   (claim_C3_bind_reset_then_bind_iff_valid ⟨⟨some 5, 1, false, 0, none⟩⟩ ⟨some 7, 3⟩ 0 ⟨[]⟩).2.2.2.2⟩

/-- C4: `reset` always yields an unbound handle, closes the previously owned
endpoint (appending it to the world's closed list), is idempotent as an
operation on handle and world, and is a complete no-op on a handle in the
default (already-unbound) state. -/
theorem claim_C4_reset_unbinds_and_idempotent (p : InterfacePtr) (w : World) :
    (p.reset w).1.is_bound = false ∧
    ((p.reset w).2).closed = w.closed ++ p.internal_state.endpoint.toList ∧
    ((p.reset w).1.reset ((p.reset w).2)) = p.reset w ∧
    (p.internal_state = InterfacePtrState.empty →
      (p.reset w).1 = p ∧ (p.reset w).2 = w) := by
  obtain ⟨st⟩ := p
  refine ⟨rfl, rfl, ?_, ?_⟩
  · simp [InterfacePtr.reset, InterfacePtrState.Swap, InterfacePtrState.empty,
      InterfacePtrState.closeList]
  · intro h
    replace h : st = InterfacePtrState.empty := h
    subst h
    refine ⟨rfl, ?_⟩
    simp [InterfacePtr.reset, InterfacePtrState.Swap, InterfacePtrState.closeList,
      InterfacePtrState.empty]

/-- Witness for C4: resetting a bound, errored handle owning endpoint 4 leaves
it unbound and closes endpoint 4; resetting an already-empty handle changes
neither the handle nor the world. -/
theorem claim_C4_reset_unbinds_and_idempotent_witness :
    (InterfacePtr.reset ⟨⟨some 4, 2, true, 0, none⟩⟩ ⟨[9]⟩).1.is_bound = false ∧
    ((InterfacePtr.reset ⟨⟨some 4, 2, true, 0, none⟩⟩ ⟨[9]⟩).2).closed =
      [9] ++ (InterfacePtr.internal_state ⟨⟨some 4, 2, true, 0, none⟩⟩).endpoint.toList ∧
    ((InterfacePtr.reset ⟨InterfacePtrState.empty⟩ ⟨[]⟩).1 = ⟨InterfacePtrState.empty⟩ ∧
      (InterfacePtr.reset ⟨InterfacePtrState.empty⟩ ⟨[]⟩).2 = ⟨[]⟩) :=
  ⟨(claim_C4_reset_unbinds_and_idempotent ⟨⟨some 4, 2, true, 0, none⟩⟩ ⟨[9]⟩).1,
   (claim_C4_reset_unbinds_and_idempotent ⟨⟨some 4, 2, true, 0, none⟩⟩ ⟨[9]⟩).2.1,
   (claim_C4_reset_unbinds_and_idempotent ⟨InterfacePtrState.empty⟩ ⟨[]⟩).2.2.2 rfl⟩

/-- C5: on a bound handle, `PassInterfaceHandle` returns a Capability Handle
carrying the very endpoint and negotiated version of the handle, leaves the
handle unbound, closes nothing, and binding a fresh default-constructed handle
with the returned capability restores `is_bound` and preserves the negotiated
version. -/
theorem claim_C5_pass_interface_handle_roundtrip (p : InterfacePtr) (w w' : World)
    (waiter : Nat) (hb : p.is_bound = true) :
    (p.PassInterfaceHandle w).1.handle = p.internal_state.endpoint ∧
    (p.PassInterfaceHandle w).1.version = p.version ∧
    (p.PassInterfaceHandle w).2.1.is_bound = false ∧
    ((p.PassInterfaceHandle w).2.2).closed = w.closed ∧
    (InterfacePtr.mk_default.Bind (p.PassInterfaceHandle w).1 waiter w').1.is_bound = true ∧
    (InterfacePtr.mk_default.Bind (p.PassInterfaceHandle w).1 waiter w').1.version =
      p.version := by
  rw [InterfacePtr.is_bound, InterfacePtrState.is_bound] at hb
  obtain ⟨e, he⟩ := Option.isSome_iff_exists.mp hb
  have hv : ((p.PassInterfaceHandle w).1).is_valid = true := by
    simp [InterfacePtr.PassInterfaceHandle, InterfacePtrState.Swap,
      InterfacePtrState.PassInterfaceHandle, InterfaceHandle.is_valid, he]
  refine ⟨rfl, rfl, rfl, ?_, ?_, ?_⟩
  · simp [InterfacePtr.PassInterfaceHandle, InterfacePtrState.Swap,
      InterfacePtrState.PassInterfaceHandle, InterfacePtrState.closeList]
  · simp [InterfacePtr.Bind, hv, InterfacePtr.is_bound, InterfacePtrState.is_bound,
      InterfacePtrState.Bind, InterfacePtr.PassInterfaceHandle, InterfacePtrState.Swap,
      InterfacePtrState.PassInterfaceHandle, InterfaceHandle.is_valid, he]
  · simp [InterfacePtr.Bind, hv, InterfacePtr.version, InterfacePtrState.Bind,
      InterfacePtr.PassInterfaceHandle, InterfacePtrState.Swap,
      InterfacePtrState.PassInterfaceHandle, InterfaceHandle.is_valid, he]

/-- Witness for C5: a handle bound to endpoint 3 at negotiated version 2. -/
theorem claim_C5_pass_interface_handle_roundtrip_witness :
    InterfacePtr.is_bound ⟨⟨some 3, 2, false, 1, none⟩⟩ = true ∧
    (InterfacePtr.PassInterfaceHandle ⟨⟨some 3, 2, false, 1, none⟩⟩ ⟨[]⟩).1.handle =
      (InterfacePtr.internal_state ⟨⟨some 3, 2, false, 1, none⟩⟩).endpoint ∧
    (InterfacePtr.PassInterfaceHandle ⟨⟨some 3, 2, false, 1, none⟩⟩ ⟨[]⟩).2.1.is_bound =
      false ∧
    (InterfacePtr.mk_default.Bind
        (InterfacePtr.PassInterfaceHandle ⟨⟨some 3, 2, false, 1, none⟩⟩ ⟨[]⟩).1 0
        ⟨[]⟩).1.is_bound = true ∧
    (InterfacePtr.mk_default.Bind
        (InterfacePtr.PassInterfaceHandle ⟨⟨some 3, 2, false, 1, none⟩⟩ ⟨[]⟩).1 0
        ⟨[]⟩).1.version = InterfacePtr.version ⟨⟨some 3, 2, false, 1, none⟩⟩ :=
  ⟨by decide,
   (claim_C5_pass_interface_handle_roundtrip ⟨⟨some 3, 2, false, 1, none⟩⟩ ⟨[]⟩ ⟨[]⟩ 0
     (by decide)).1,
   (claim_C5_pass_interface_handle_roundtrip ⟨⟨some 3, 2, false, 1, none⟩⟩ ⟨[]⟩ ⟨[]⟩ 0
     (by decide)).2.2.1,
   (claim_C5_pass_interface_handle_roundtrip ⟨⟨some 3, 2, false, 1, none⟩⟩ ⟨[]⟩ ⟨[]⟩ 0
     (by decide)).2.2.2.2.1,
   (claim_C5_pass_interface_handle_roundtrip ⟨⟨some 3, 2, false, 1, none⟩⟩ ⟨[]⟩ ⟨[]⟩ 0
     (by decide)).2.2.2.2.2⟩

/-- C6: on a bound handle, `RequireVersion v` with `v` at most the current
negotiated version is a complete no-op: the handle, including its binding,
version, and error flag, is unchanged. -/
theorem claim_C6_require_version_le_noop (p : InterfacePtr) (v : Nat)
    (hb : p.is_bound = true) (hv : v ≤ p.version) :
    p.RequireVersion v = p := by
  obtain ⟨st⟩ := p
  simp only [InterfacePtr.version] at hv
  simp [InterfacePtr.RequireVersion, InterfacePtrState.RequireVersion, hv]

/-- Witness for C6: requiring version 2 on a handle whose negotiated version
is 3 changes nothing. -/
theorem claim_C6_require_version_le_noop_witness :
    InterfacePtr.is_bound ⟨⟨some 2, 3, false, 0, none⟩⟩ = true ∧
    2 ≤ InterfacePtr.version ⟨⟨some 2, 3, false, 0, none⟩⟩ ∧
    InterfacePtr.RequireVersion ⟨⟨some 2, 3, false, 0, none⟩⟩ 2 =
      ⟨⟨some 2, 3, false, 0, none⟩⟩ :=
  ⟨by decide, by decide,
   claim_C6_require_version_le_noop ⟨⟨some 2, 3, false, 0, none⟩⟩ 2 (by decide) (by decide)⟩

/-- C7: a zero-duration timed wait on a bound, error-free handle with no
pending inbound event returns false with the handle unchanged — a pure
timeout, reported as no response, never setting the sticky error flag. -/
theorem claim_C7_zero_timeout_not_error (p : InterfacePtr) (env : WaitEnv)
    (hb : p.is_bound = true) (he : p.encountered_error = false)
    (hnp : ∀ t a, env.next = some (t, a) → 0 < t) :
    p.WaitForIncomingResponseWithTimeout (TimeDelta.finite 0) env = some (false, p) := by
  rw [InterfacePtr.encountered_error, InterfacePtrState.encountered_error] at he
  cases hn : env.next with
  | none =>
    simp [InterfacePtr.WaitForIncomingResponseWithTimeout,
      InterfacePtrState.WaitForIncomingResponse, he, hn]
  | some ta =>
    obtain ⟨t, a⟩ := ta
    have ht : 0 < t := hnp t a hn
    have hexp : (TimeDelta.finite 0).expiresBefore t = true := by
      simp [TimeDelta.expiresBefore, ht]
    simp [InterfacePtr.WaitForIncomingResponseWithTimeout,
      InterfacePtrState.WaitForIncomingResponse, he, hn, hexp]

/-- Witness for C7: a bound, error-free handle waiting with a zero deadline on
a channel that never delivers anything. -/
theorem claim_C7_zero_timeout_not_error_witness :
    InterfacePtr.is_bound ⟨⟨some 6, 1, false, 0, none⟩⟩ = true ∧
    InterfacePtr.encountered_error ⟨⟨some 6, 1, false, 0, none⟩⟩ = false ∧
    InterfacePtr.WaitForIncomingResponseWithTimeout ⟨⟨some 6, 1, false, 0, none⟩⟩
      (TimeDelta.finite 0) ⟨none⟩ = some (false, ⟨⟨some 6, 1, false, 0, none⟩⟩) :=
  ⟨by decide, by decide,
   claim_C7_zero_timeout_not_error ⟨⟨some 6, 1, false, 0, none⟩⟩ ⟨none⟩ (by decide)
     (by decide) (fun t a h => by simp at h)⟩

/-- C8: once the sticky error flag of a binding is set, it remains set under
every sequence of bound-preserving operations (version requirements, waits,
method calls, handler registration — everything except reset/rebinding, which
replace the binding), and every method call through the errored binding is
silently dropped: no message is sent. -/
theorem claim_C8_sticky_error_drops_calls (ops : List BoundOp)
    (s : InterfacePtrState) (he : s.error = true) :
    (ops.foldl applyBoundOp s).error = true ∧
    ((ops.foldl applyBoundOp s).call 3).2 = [] := by
  have hstep : ∀ (s' : InterfacePtrState) (op : BoundOp), s'.error = true →
      (applyBoundOp s' op).error = true := by
    intro s' op h
    cases op with
    | requireVersion v =>
      simp only [applyBoundOp, InterfacePtrState.RequireVersion]
      split
      · exact h
      · exact h
    | wait timeout env =>
      simp [applyBoundOp, InterfacePtrState.WaitForIncomingResponse, h]
    | call m =>
      simp [applyBoundOp, InterfacePtrState.call, h]
    | setHandler cb =>
      simp [applyBoundOp, InterfacePtrState.set_connection_error_handler, h]
  have hfold : ∀ (l : List BoundOp) (s' : InterfacePtrState), s'.error = true →
      (l.foldl applyBoundOp s').error = true := by
    intro l
    induction l with
    | nil => intro s' h; exact h
    | cons op rest ih => intro s' h; exact ih (applyBoundOp s' op) (hstep s' op h)
  refine ⟨hfold ops s he, ?_⟩
  simp [InterfacePtrState.call, hfold ops s he]

/-- Witness for C8: an errored binding keeps its error flag across a call, a
version requirement, a zero-timeout wait, and a handler registration, and a
call afterwards sends nothing. -/
theorem claim_C8_sticky_error_drops_calls_witness :
    (InterfacePtrState.error ⟨some 1, 0, true, 0, none⟩ = true) ∧
    (([BoundOp.call 5, BoundOp.requireVersion 9,
        BoundOp.wait (TimeDelta.finite 0) ⟨none⟩,
        BoundOp.setHandler 2].foldl applyBoundOp ⟨some 1, 0, true, 0, none⟩).error = true) ∧
    ((([BoundOp.call 5, BoundOp.requireVersion 9,
        BoundOp.wait (TimeDelta.finite 0) ⟨none⟩,
        BoundOp.setHandler 2].foldl applyBoundOp ⟨some 1, 0, true, 0, none⟩).call 3).2 = []) :=
  ⟨by decide,
   (claim_C8_sticky_error_drops_calls
     [BoundOp.call 5, BoundOp.requireVersion 9, BoundOp.wait (TimeDelta.finite 0) ⟨none⟩,
      BoundOp.setHandler 2] ⟨some 1, 0, true, 0, none⟩ (by decide)).1,
   (claim_C8_sticky_error_drops_calls
     [BoundOp.call 5, BoundOp.requireVersion 9, BoundOp.wait (TimeDelta.finite 0) ⟨none⟩,
      BoundOp.setHandler 2] ⟨some 1, 0, true, 0, none⟩ (by decide)).2⟩

/-- C9: `WaitForIncomingResponse` is definitionally the timed wait at the
infinite deadline; whenever the infinite wait returns, it returns true exactly
when an inbound message was received and dispatched (no prior error, next
event a message), and the timed variant additionally returns false, leaving
the handle unchanged, when nothing arrives before a finite deadline. -/
theorem claim_C9_wait_equals_infinite_timed_wait (p : InterfacePtr) (env : WaitEnv) :
    p.WaitForIncomingResponse env =
      p.WaitForIncomingResponseWithTimeout MX_TIME_INFINITE env ∧
    (∀ b q, p.WaitForIncomingResponseWithTimeout MX_TIME_INFINITE env = some (b, q) →
      (b = true ↔ p.encountered_error = false ∧
        ∃ t, env.next = some (t, Arrival.message))) ∧
    (∀ d, env.next = none →
      p.WaitForIncomingResponseWithTimeout (TimeDelta.finite d) env = some (false, p)) := by
  refine ⟨rfl, ?_, ?_⟩
  · intro b q h
    by_cases he : p.internal_state.error
    · simp [InterfacePtr.WaitForIncomingResponseWithTimeout,
        InterfacePtrState.WaitForIncomingResponse, he] at h
      simp [← h.1, InterfacePtr.encountered_error, InterfacePtrState.encountered_error, he]
    · cases hn : env.next with
      | none =>
        simp [InterfacePtr.WaitForIncomingResponseWithTimeout,
          InterfacePtrState.WaitForIncomingResponse, he, hn, MX_TIME_INFINITE] at h
      | some ta =>
        obtain ⟨t, a⟩ := ta
        cases a with
        | message =>
          simp [InterfacePtr.WaitForIncomingResponseWithTimeout,
            InterfacePtrState.WaitForIncomingResponse, he, hn, MX_TIME_INFINITE,
            TimeDelta.expiresBefore] at h
          simp [← h.1, InterfacePtr.encountered_error, InterfacePtrState.encountered_error,
            he, hn]
        | chanError =>
          simp [InterfacePtr.WaitForIncomingResponseWithTimeout,
            InterfacePtrState.WaitForIncomingResponse, he, hn, MX_TIME_INFINITE,
            TimeDelta.expiresBefore] at h
          simp [← h.1, InterfacePtr.encountered_error, InterfacePtrState.encountered_error,
            he, hn]
  · intro d hn
    by_cases he : p.internal_state.error <;>
      simp [InterfacePtr.WaitForIncomingResponseWithTimeout,
        InterfacePtrState.WaitForIncomingResponse, he, hn]

/-- Witness for C9: on a handle bound without error and a channel delivering a
message at time 2, the untimed wait coincides with the infinite timed wait and
returns true; with an empty channel and deadline 5 the timed wait returns
false with the handle unchanged. -/
theorem claim_C9_wait_equals_infinite_timed_wait_witness :
    (InterfacePtr.WaitForIncomingResponse ⟨⟨some 1, 0, false, 0, none⟩⟩
        ⟨some (2, Arrival.message)⟩ =
      InterfacePtr.WaitForIncomingResponseWithTimeout ⟨⟨some 1, 0, false, 0, none⟩⟩
        MX_TIME_INFINITE ⟨some (2, Arrival.message)⟩) ∧
    ((true = true) ↔ (InterfacePtr.encountered_error ⟨⟨some 1, 0, false, 0, none⟩⟩ = false ∧
      ∃ t, (WaitEnv.next ⟨some (2, Arrival.message)⟩) = some (t, Arrival.message))) ∧
    (InterfacePtr.WaitForIncomingResponseWithTimeout ⟨⟨some 1, 0, false, 0, none⟩⟩
        (TimeDelta.finite 5) ⟨none⟩ = some (false, ⟨⟨some 1, 0, false, 0, none⟩⟩)) :=
  ⟨(claim_C9_wait_equals_infinite_timed_wait ⟨⟨some 1, 0, false, 0, none⟩⟩
      ⟨some (2, Arrival.message)⟩).1,
   (claim_C9_wait_equals_infinite_timed_wait ⟨⟨some 1, 0, false, 0, none⟩⟩
      ⟨some (2, Arrival.message)⟩).2.1 true ⟨⟨some 1, 0, false, 0, none⟩⟩ (by decide),
   (claim_C9_wait_equals_infinite_timed_wait ⟨⟨some 1, 0, false, 0, none⟩⟩
      ⟨none⟩).2.2 5 rfl⟩

/-- C10: assigning nullptr is definitionally `reset()` — it closes any bound
endpoint and leaves the handle unbound — and constructing from nullptr yields
exactly the default-constructed unbound handle. -/
theorem claim_C10_nullptr_equals_reset (p : InterfacePtr) (w : World) :
    p.assignNull w = p.reset w ∧
    InterfacePtr.mk_null = InterfacePtr.mk_default ∧
    InterfacePtr.mk_null.is_bound = false ∧
    (p.assignNull w).1.is_bound = false ∧
    ((p.assignNull w).2).closed = w.closed ++ p.internal_state.endpoint.toList :=
  ⟨rfl, rfl, rfl, rfl, rfl⟩
